import Mathlib

/-!
Shallow embedding of `folly/experimental/AutoTimer.h` (folly, 2016).

The C++ class `AutoTimer<Logger, Clock>` stores a destruction message, a
minimum-duration-to-log threshold, a start timestamp and a logger.  We embed
it as follows:

* Timestamps and elapsed seconds (C++ `double` obtained via
  `duration_cast<duration<double>>`) are modelled as rationals `ℚ`.
* The clock capability `Clock::now()` is modelled as a stream of samples
  `Env.clock : ℕ → ℚ`; a `World` carries the index `tick` of the next sample,
  so the order in which the code calls `Clock::now()` is observable.
* The logger capability (C++ `operator()(StringPiece, double)`) is modelled
  as a state transformer `String → ℚ → σ → σ`; the logger's state `σ` lives
  in the `World`.  Instantiating `σ := List (String × ℚ)` with `recordLogger`
  records every invocation, which is how "the logger is invoked with
  (msg, elapsed)" is phrased in the theorems.
* For error-propagation claims a second, fallible variant is given in which
  both the clock and the logger may fail (`Except ε`), mirroring a C++
  clock/logger that throws.
-/

/-- Clock capability: the stream of values successive `Clock::now()` calls
return. -/
structure Env where
  clock : ℕ → ℚ

/-- World threaded through the embedding: `tick` is the index of the next
`Clock::now()` sample, `loggerState` the logger capability's own state. -/
structure World (σ : Type) where
  tick : ℕ
  loggerState : σ

/-- Result of one `Clock::now()` call: the sample, and the world with the
sample consumed. -/
def Env.now (e : Env) {σ : Type} (w : World σ) : ℚ × World σ :=
  (e.clock w.tick, ⟨w.tick + 1, w.loggerState⟩)

/-- The `AutoTimer` object state: `const std::string destructionMessage_`,
`double minTimeToLog_`, `std::chrono::time_point<Clock> start_`.  The logger
member `Logger logger_` is a capability; in this embedding the capability's
function is passed at each invocation site and its state lives in `World`. -/
structure AutoTimer where
  destructionMessage_ : String
  minTimeToLog_ : ℚ
  start_ : ℚ
deriving DecidableEq

/-- Constructor `AutoTimer(msg, minTimetoLog, logger)`: stores the message and
threshold; the member initialiser `start_ = Clock::now()` samples the clock. -/
def AutoTimer.create (e : Env) {σ : Type} (w : World σ) (msg : String)
    (minTimetoLog : ℚ) : AutoTimer × World σ :=
  let (now, w1) := e.now w
  (⟨msg, minTimetoLog, now⟩, w1)

/-- `logImpl(now, msg)`: computes `duration = now - start_` in seconds,
invokes the logger iff `duration >= minTimeToLog_`, then re-samples the clock
into `start_` ("Don't measure logging time") and returns the duration. -/
def AutoTimer.logImpl (e : Env) {σ : Type} (logger : String → ℚ → σ → σ)
    (t : AutoTimer) (w : World σ) (now : ℚ) (msg : String) :
    ℚ × AutoTimer × World σ :=
  let duration := now - t.start_
  let s' := if duration ≥ t.minTimeToLog_ then logger msg duration w.loggerState
            else w.loggerState
  let (fresh, w2) := e.now ⟨w.tick, s'⟩
  (duration, { t with start_ := fresh }, w2)

/-- `log(msg)`: samples `Clock::now()` and delegates to `logImpl`. -/
def AutoTimer.log (e : Env) {σ : Type} (logger : String → ℚ → σ → σ)
    (t : AutoTimer) (w : World σ) (msg : String) : ℚ × AutoTimer × World σ :=
  let (now, w1) := e.now w
  t.logImpl e logger w1 now msg

/-- Variadic overload `log(Args&&... args)`: captures `now = Clock::now()`
first, then builds the message with `to<std::string>(args...)` (embedded as a
pure builder `build`), then delegates to `logImpl` with that `now`. -/
def AutoTimer.logTo (e : Env) {σ α : Type} (logger : String → ℚ → σ → σ)
    (build : α → String) (t : AutoTimer) (w : World σ) (args : α) :
    ℚ × AutoTimer × World σ :=
  let (now, w1) := e.now w
  t.logImpl e logger w1 now (build args)

/-- `logFormat(Args&&... args)`: captures `now = Clock::now()` first, then
builds the message with `format(args...).str()` (embedded as a pure builder
`fmt`), then delegates to `logImpl` with that `now`. -/
def AutoTimer.logFormat (e : Env) {σ α : Type} (logger : String → ℚ → σ → σ)
    (fmt : α → String) (t : AutoTimer) (w : World σ) (args : α) :
    ℚ × AutoTimer × World σ :=
  let (now, w1) := e.now w
  t.logImpl e logger w1 now (fmt args)

/-- Destructor `~AutoTimer() { log(destructionMessage_); }`: runs at scope
exit of the object and performs the final report. -/
def AutoTimer.destruct (e : Env) {σ : Type} (logger : String → ℚ → σ → σ)
    (t : AutoTimer) (w : World σ) : World σ :=
  (t.log e logger w t.destructionMessage_).2.2

/-- The defaulted move constructor `AutoTimer(AutoTimer&&) = default`.
Member-wise: `destructionMessage_` is a `const std::string`, so the defaulted
move binds `const std::string&&` to the copy constructor and COPIES it;
`start_` (a trivially copyable `time_point`) and `minTimeToLog_` (`double`)
are copied; `logger_` is moved, but in this embedding the logger capability
lives outside the object.  Hence the target is a field-wise copy and the
source's fields are left unchanged: `(target, source-after-move)`. -/
def AutoTimer.moveConstruct (t : AutoTimer) : AutoTimer × AutoTimer :=
  (⟨t.destructionMessage_, t.minTimeToLog_, t.start_⟩, t)

/-- Factory `makeAutoTimer(msg, minTimeToLog, logger)`: forwards its
arguments to the `AutoTimer` constructor and returns the timer. -/
def makeAutoTimer (e : Env) {σ : Type} (w : World σ) (msg : String)
    (minTimeToLog : ℚ) : AutoTimer × World σ :=
  AutoTimer.create e w msg minTimeToLog

/-- Instrumentation logger recording every invocation `(msg, elapsed)` in
order. -/
def recordLogger : String → ℚ → List (String × ℚ) → List (String × ℚ) :=
  fun msg d evs => evs ++ [(msg, d)]

/-- The two presentation styles of the default logger. -/
inductive GoogleLoggerStyle where
  | SECONDS
  | PRETTY
deriving DecidableEq

/-- Default logger `GoogleLogger<Style>::operator()(StringPiece msg, double
sec)`: returns without output if `msg.empty()`; otherwise emits
`msg << " in " << prettyPrint(sec, PRETTY_TIME)` in the PRETTY style and
`msg << " in " << sec << " seconds"` in the SECONDS style.  The renderings
`prettyPrint` (folly/String.h) and the stream formatting of the `double`
(glog) are external to this file, so they are taken as parameters
`pretty`/`showSec`; the emitted lines are collected in a list. -/
def GoogleLogger (style : GoogleLoggerStyle) (pretty : ℚ → String)
    (showSec : ℚ → String) (msg : String) (sec : ℚ) (out : List String) :
    List String :=
  if msg.isEmpty then out
  else if style = GoogleLoggerStyle.PRETTY then
    out ++ [msg ++ " in " ++ pretty sec]
  else
    out ++ [msg ++ " in " ++ showSec sec ++ " seconds"]

/-- Fallible variant of `logImpl`: the logger call and the trailing
`start_ = Clock::now()` may both fail (a throwing logger or clock); the code
has no handler, so the first failure aborts the call and propagates. -/
def AutoTimer.logImplE (clk : ℕ → Except String ℚ) {σ : Type}
    (logger : String → ℚ → σ → Except String σ) (t : AutoTimer) (w : World σ)
    (now : ℚ) (msg : String) : Except String (ℚ × AutoTimer × World σ) :=
  let duration := now - t.start_
  match (if duration ≥ t.minTimeToLog_ then logger msg duration w.loggerState
         else Except.ok w.loggerState) with
  | Except.error err => Except.error err
  | Except.ok s' =>
    match clk w.tick with
    | Except.error err => Except.error err
    | Except.ok fresh =>
      Except.ok (duration, { t with start_ := fresh }, ⟨w.tick + 1, s'⟩)

/-- Fallible variant of `log(msg)`: `Clock::now()` may fail; otherwise
delegates to `logImplE`. -/
def AutoTimer.logE (clk : ℕ → Except String ℚ) {σ : Type}
    (logger : String → ℚ → σ → Except String σ) (t : AutoTimer) (w : World σ)
    (msg : String) : Except String (ℚ × AutoTimer × World σ) :=
  match clk w.tick with
  | Except.error err => Except.error err
  | Except.ok now => t.logImplE clk logger ⟨w.tick + 1, w.loggerState⟩ now msg

/-- Outcome of running a destructor whose body may raise: either it
completes normally, or an exception escaped the destructor body.
`~AutoTimer()` is a user-provided destructor with no exception
specification, hence implicitly `noexcept(true)` in C++11+ (every member has
a noexcept destructor), so an escaping exception calls `std::terminate`:
nothing is returned to the caller.  `terminated` records, for inspection
only, which error was in flight when `std::terminate` was called. -/
inductive DtorOutcome (σ : Type) where
  | completed : World σ → DtorOutcome σ
  | terminated : String → DtorOutcome σ

/-- Fallible variant of the destructor: the automatic final report
`log(destructionMessage_)` with a fallible clock/logger.  Because the
destructor is implicitly `noexcept`, a failure of the report does not
propagate: it ends in `DtorOutcome.terminated`. -/
def AutoTimer.destructE (clk : ℕ → Except String ℚ) {σ : Type}
    (logger : String → ℚ → σ → Except String σ) (t : AutoTimer) (w : World σ) :
    DtorOutcome σ :=
  match t.logE clk logger w t.destructionMessage_ with
  | Except.error err => DtorOutcome.terminated err
  | Except.ok r => DtorOutcome.completed r.2.2

/-- Logger counting its invocations, used to state "at most once per
report". -/
def countLogger : String → ℚ → ℕ → Except String ℕ :=
  fun _ _ n => Except.ok (n + 1)

/-! ### Concrete scenarios -/

/-- Clock stream for the spec's worked scenario: construction samples `t=0`,
the first report samples `t=2.5` (and its checkpoint re-sample still reads
`2.5`, the clock being advanced only afterwards), and scope exit samples
`t=3`. -/
def envC4 : Env := ⟨fun n => match n with | 0 => 0 | 1 => 5/2 | 2 => 5/2 | _ => 3⟩

/-- Run of the worked scenario: construct with message `"work"`, threshold
`0`, report `"step1"`, then scope exit; returns the first report's return
value and the recorded logger invocations. -/
def c4run : ℚ × List (String × ℚ) :=
  let (t, w1) := AutoTimer.create envC4 (⟨0, []⟩ : World (List (String × ℚ))) "work" 0
  let (d1, t1, w2) := t.log envC4 recordLogger w1 "step1"
  let w3 := t1.destruct envC4 recordLogger w2
  (d1, w3.loggerState)

/-- Clock stream reading `0, 1, 2, 3, …`: each `Clock::now()` call sees a
strictly later time. -/
def env1 : Env := ⟨fun n => (n : ℚ)⟩

/-- Run of the move scenario: construct with message `"work"`, threshold `0`,
move-construct a second timer from it, then let both leave scope; returns the
recorded logger invocations. -/
def c1run : List (String × ℚ) :=
  let (t, w1) := AutoTimer.create env1 (⟨0, []⟩ : World (List (String × ℚ))) "work" 0
  let (tgt, src) := t.moveConstruct
  let w2 := tgt.destruct env1 recordLogger w1
  let w3 := src.destruct env1 recordLogger w2
  w3.loggerState

/-! ### Claims -/

/-- C4: for a timer constructed with destruction message `"work"`, threshold
`0.0` and a fake clock at `t=0`: after advancing the clock to `t=2.5`,
`report("step1")` returns `2.5` and invokes the logger exactly once with
`("step1", 2.5)`; after further advancing the clock to `t=3.0`, scope exit
invokes the logger exactly once with `("work", 0.5)`. -/
theorem c4_scenario_work_step1 :
    c4run = (2.5, [("step1", 2.5), ("work", 0.5)]) := by
  norm_num [c4run, AutoTimer.create, AutoTimer.log, AutoTimer.logImpl,
    AutoTimer.destruct, Env.now, recordLogger, envC4]

/-- C1 (failing input): a timer constructed with message `"work"` and
threshold `0` is moved into a second timer; at scope exit BOTH the move
target and the moved-from source fire a final report with message `"work"` —
two final reports, not one.  The defaulted move constructor copies the
`const std::string destructionMessage_` (a const member cannot be moved), so
the moved-from source's destructor still runs `log("work")`. -/
theorem c1_move_double_report :
    c1run = [("work", 1), ("work", 3)] ∧ c1run.length = 2 := by
  constructor
  · norm_num [c1run, AutoTimer.create, AutoTimer.log, AutoTimer.logImpl,
      AutoTimer.destruct, AutoTimer.moveConstruct, Env.now, recordLogger, env1]
  · norm_num [c1run, AutoTimer.create, AutoTimer.log, AutoTimer.logImpl,
      AutoTimer.destruct, AutoTimer.moveConstruct, Env.now, recordLogger, env1]

/-- C2: every `logImpl` call returns `now - start_` converted to seconds,
invokes the logger with `(msg, elapsed)` exactly when
`elapsed >= minTimeToLog_`, and returns the elapsed value unchanged whether
or not the logger was invoked. -/
theorem c2_logImpl_elapsed_and_threshold (e : Env) (t : AutoTimer)
    (w : World (List (String × ℚ))) (now : ℚ) (msg : String) :
    (t.logImpl e recordLogger w now msg).1 = now - t.start_
    ∧ (now - t.start_ ≥ t.minTimeToLog_ →
        (t.logImpl e recordLogger w now msg).2.2.loggerState
          = w.loggerState ++ [(msg, now - t.start_)])
    ∧ (¬ now - t.start_ ≥ t.minTimeToLog_ →
        (t.logImpl e recordLogger w now msg).2.2.loggerState = w.loggerState) := by
  refine ⟨rfl, fun h => ?_, fun h => ?_⟩ <;>
    simp [AutoTimer.logImpl, Env.now, recordLogger, h]

/-- C2 witness: concrete instances of both threshold branches, elapsed `3`
against thresholds `1` (logged) and `7` (suppressed, value still returned). -/
theorem c2_witness :
    (AutoTimer.logImpl ⟨fun _ => 0⟩ recordLogger ⟨"m", 1, 0⟩ ⟨0, []⟩ 3 "a").1 = 3 - 0
    ∧ (AutoTimer.logImpl ⟨fun _ => 0⟩ recordLogger ⟨"m", 1, 0⟩ ⟨0, []⟩ 3 "a").2.2.loggerState
        = [] ++ [("a", 3 - 0)]
    ∧ (AutoTimer.logImpl ⟨fun _ => 0⟩ recordLogger ⟨"m", 7, 0⟩ ⟨0, []⟩ 3 "a").2.2.loggerState
        = [] :=
  ⟨(c2_logImpl_elapsed_and_threshold ⟨fun _ => 0⟩ ⟨"m", 1, 0⟩ ⟨0, []⟩ 3 "a").1,
   (c2_logImpl_elapsed_and_threshold ⟨fun _ => 0⟩ ⟨"m", 1, 0⟩ ⟨0, []⟩ 3 "a").2.1 (by norm_num),
   (c2_logImpl_elapsed_and_threshold ⟨fun _ => 0⟩ ⟨"m", 7, 0⟩ ⟨0, []⟩ 3 "a").2.2 (by norm_num)⟩

/-- C5: the variadic overload (`to<std::string>` message building) and the
format-string overload (`format(...).str()`) are extensionally equal to the
canonical `log` applied to the already-built string: each captures `now`
before constructing the message and delegates to `logImpl` with that `now`,
so both consume the same clock sample as the base `log` and leave the
checkpoint at the same subsequent sample. -/
theorem c5_overloads_refine_log {σ α : Type} (e : Env)
    (logger : String → ℚ → σ → σ) (build fmt : α → String) (t : AutoTimer)
    (w : World σ) (args : α) :
    t.logTo e logger build w args = t.log e logger w (build args)
    ∧ t.logFormat e logger fmt w args = t.log e logger w (fmt args) :=
  ⟨rfl, rfl⟩

/-- C7: for every elapsed value, both presentation styles and any rendering
of the duration, the default logger produces no output when the message is
empty. -/
theorem c7_googleLogger_empty_message_silent (style : GoogleLoggerStyle)
    (pretty showSec : ℚ → String) (sec : ℚ) (out : List String) :
    GoogleLogger style pretty showSec "" sec out = out := by
  simp [GoogleLogger, show "".isEmpty = true from rfl]

/-- C9: the `makeAutoTimer` factory is extensionally equal to direct
construction with the same arguments: same stored destruction message, same
threshold, and a checkpoint sampled from the clock at construction time. -/
theorem c9_makeAutoTimer_equiv_direct {σ : Type} (e : Env) (w : World σ)
    (msg : String) (m : ℚ) :
    makeAutoTimer e w msg m = AutoTimer.create e w msg m
    ∧ (makeAutoTimer e w msg m).1.destructionMessage_ = msg
    ∧ (makeAutoTimer e w msg m).1.minTimeToLog_ = m
    ∧ (makeAutoTimer e w msg m).1.start_ = e.clock w.tick
    ∧ (makeAutoTimer e w msg m).2.tick = w.tick + 1 :=
  ⟨rfl, rfl, rfl, rfl, rfl⟩

/-- Constant clock: every `Clock::now()` call reads `0` (clock unadvanced). -/
def env0 : Env := ⟨fun _ => 0⟩

/-- C3: the checkpoint is the construction-time clock sample; every report
(logging or not) resets it to the clock sample taken after the logger call
(the sample following the `now` sample, with the tick advanced past both);
consequently a second immediate report with the clock unadvanced returns `0`
and does not invoke the logger when `minTimeToLog_ > 0`. -/
theorem c3_checkpoint_invariant {σ : Type} (e : Env) (logger : String → ℚ → σ → σ)
    (t : AutoTimer) (w : World σ) (msg msg2 : String) (m : ℚ) :
    (AutoTimer.create e w msg m).1.start_ = e.clock w.tick
    ∧ (t.log e logger w msg).2.1.start_ = e.clock (w.tick + 1)
    ∧ (t.log e logger w msg).2.2.tick = w.tick + 2
    ∧ (0 < t.minTimeToLog_ → e.clock (w.tick + 2) = e.clock (w.tick + 1) →
        ((t.log e logger w msg).2.1.log e logger (t.log e logger w msg).2.2 msg2).1 = 0
        ∧ ((t.log e logger w msg).2.1.log e logger (t.log e logger w msg).2.2 msg2).2.2.loggerState
            = (t.log e logger w msg).2.2.loggerState) := by
  refine ⟨rfl, rfl, rfl, fun h1 h2 => ?_⟩
  have hd : e.clock (w.tick + 2) - e.clock (w.tick + 1) = 0 := by rw [h2, sub_self]
  constructor
  · simp [AutoTimer.log, AutoTimer.logImpl, Env.now, hd]
  · simp [AutoTimer.log, AutoTimer.logImpl, Env.now, hd, not_le.mpr h1]

/-- C3 witness: constant clock, threshold `1`; the second immediate report
returns `0` and records nothing. -/
theorem c3_witness :
    (AutoTimer.create env0 (⟨0, []⟩ : World (List (String × ℚ))) "a" 1).1.start_ = env0.clock 0
    ∧ (AutoTimer.log env0 recordLogger ⟨"m", 1, 0⟩ ⟨0, []⟩ "a").2.1.start_ = env0.clock (0 + 1)
    ∧ (AutoTimer.log env0 recordLogger ⟨"m", 1, 0⟩ ⟨0, []⟩ "a").2.2.tick = 0 + 2
    ∧ (((AutoTimer.log env0 recordLogger ⟨"m", 1, 0⟩ ⟨0, []⟩ "a").2.1.log env0 recordLogger
          (AutoTimer.log env0 recordLogger ⟨"m", 1, 0⟩ ⟨0, []⟩ "a").2.2 "b").1 = 0
        ∧ ((AutoTimer.log env0 recordLogger ⟨"m", 1, 0⟩ ⟨0, []⟩ "a").2.1.log env0 recordLogger
            (AutoTimer.log env0 recordLogger ⟨"m", 1, 0⟩ ⟨0, []⟩ "a").2.2 "b").2.2.loggerState
          = (AutoTimer.log env0 recordLogger ⟨"m", 1, 0⟩ ⟨0, []⟩ "a").2.2.loggerState) := by
  have h := c3_checkpoint_invariant (σ := List (String × ℚ)) env0 recordLogger
    ⟨"m", 1, 0⟩ ⟨0, []⟩ "a" "b" 1
  exact ⟨h.1, h.2.1, h.2.2.1, h.2.2.2 (by norm_num) rfl⟩

/-- C6: with the default threshold `0.0` and a clock that has not gone
backwards (`start_ ≤ now`), every report invokes the logger and the elapsed
value is nonnegative. -/
theorem c6_default_threshold_always_logs {σ : Type} (e : Env)
    (logger : String → ℚ → σ → σ) (t : AutoTimer) (w : World σ) (msg : String)
    (hmin : t.minTimeToLog_ = 0) (hmono : t.start_ ≤ e.clock w.tick) :
    0 ≤ (t.log e logger w msg).1
    ∧ (t.log e logger w msg).2.2.loggerState
        = logger msg (e.clock w.tick - t.start_) w.loggerState := by
  have hd : (0:ℚ) ≤ e.clock w.tick - t.start_ := sub_nonneg.mpr hmono
  constructor
  · simpa [AutoTimer.log, AutoTimer.logImpl, Env.now] using hd
  · simp [AutoTimer.log, AutoTimer.logImpl, Env.now, hmin, hd]

/-- C6 witness: threshold `0`, constant clock; the report logs. -/
theorem c6_witness :
    0 ≤ (AutoTimer.log env0 recordLogger ⟨"", 0, 0⟩ ⟨0, []⟩ "m").1
    ∧ (AutoTimer.log env0 recordLogger ⟨"", 0, 0⟩ ⟨0, []⟩ "m").2.2.loggerState
        = recordLogger "m" (env0.clock 0 - 0) [] :=
  c6_default_threshold_always_logs env0 recordLogger ⟨"", 0, 0⟩ ⟨0, []⟩ "m" rfl
    (by norm_num [env0])

/-- C10: empty-message suppression lives only in the default logger, not the
timer: (i) whenever `elapsed >= minTimeToLog_` the timer hands the (possibly
empty) message to whatever logger it holds; (ii) for a timer constructed with
the default empty destruction message, the scope-exit report is exactly a
`report("")`; (iii) with a custom (recording) logger it therefore receives
`""` at scope exit whenever the threshold is met. -/
theorem c10_empty_message_reaches_logger :
    (∀ (σ : Type) (e : Env) (logger : String → ℚ → σ → σ) (t : AutoTimer)
        (w : World σ) (now : ℚ) (msg : String),
      now - t.start_ ≥ t.minTimeToLog_ →
      (t.logImpl e logger w now msg).2.2.loggerState
        = logger msg (now - t.start_) w.loggerState)
    ∧ (∀ (e : Env) (w : World (List (String × ℚ))) (m : ℚ),
        (AutoTimer.create e w "" m).1.destruct e recordLogger (AutoTimer.create e w "" m).2
          = ((AutoTimer.create e w "" m).1.log e recordLogger (AutoTimer.create e w "" m).2 "").2.2)
    ∧ (∀ (e : Env) (w : World (List (String × ℚ))) (m : ℚ),
        m ≤ e.clock (w.tick + 1) - e.clock w.tick →
        ((AutoTimer.create e w "" m).1.destruct e recordLogger
            (AutoTimer.create e w "" m).2).loggerState
          = w.loggerState ++ [("", e.clock (w.tick + 1) - e.clock w.tick)]) := by
  refine ⟨fun σ e logger t w now msg h => ?_, fun e w m => rfl, fun e w m h => ?_⟩
  · simp [AutoTimer.logImpl, Env.now, h]
  · simp [AutoTimer.destruct, AutoTimer.create, AutoTimer.log, AutoTimer.logImpl,
      Env.now, recordLogger, h]

/-- C10 witness: an empty message reaches the recording logger when the
threshold is met, both through `logImpl` directly and at scope exit of a
timer with the default empty message. -/
theorem c10_witness :
    (AutoTimer.logImpl env0 recordLogger ⟨"", 0, 0⟩ ⟨0, []⟩ 0 "").2.2.loggerState
        = recordLogger "" (0 - 0) []
    ∧ (AutoTimer.create env1 (⟨0, []⟩ : World (List (String × ℚ))) "" 1).1.destruct env1
          recordLogger (AutoTimer.create env1 (⟨0, []⟩ : World (List (String × ℚ))) "" 1).2
        = ((AutoTimer.create env1 (⟨0, []⟩ : World (List (String × ℚ))) "" 1).1.log env1
            recordLogger (AutoTimer.create env1 (⟨0, []⟩ : World (List (String × ℚ))) "" 1).2 "").2.2
    ∧ ((AutoTimer.create env1 (⟨0, []⟩ : World (List (String × ℚ))) "" 1).1.destruct env1
          recordLogger (AutoTimer.create env1 (⟨0, []⟩ : World (List (String × ℚ))) "" 1).2).loggerState
        = [] ++ [("", env1.clock (0 + 1) - env1.clock 0)] :=
  ⟨c10_empty_message_reaches_logger.1 (List (String × ℚ)) env0 recordLogger
      ⟨"", 0, 0⟩ ⟨0, []⟩ 0 "" (by norm_num),
   c10_empty_message_reaches_logger.2.1 env1 ⟨0, []⟩ 1,
   c10_empty_message_reaches_logger.2.2 env1 ⟨0, []⟩ 1 (by norm_num [env1])⟩

/-- C8 counterexample: a logger that fails with `"boom"` during the
automatic final report does NOT propagate that failure to the caller.  The
underlying report call does fail with `"boom"` (second conjunct), but the
destructor is implicitly `noexcept`, so its outcome is `std::terminate`
(first conjunct) — the error never reaches the caller, refuting the claim's
"including the automatic final report" at this concrete input. -/
theorem c8_destructor_failure_terminates :
    AutoTimer.destructE (fun _ => Except.ok 1) (fun _ _ _ => Except.error "boom")
        (⟨"m", 0, 0⟩ : AutoTimer) (⟨0, 0⟩ : World ℕ)
      = DtorOutcome.terminated "boom"
    ∧ AutoTimer.logE (fun _ => Except.ok 1) (fun _ _ _ => Except.error "boom")
        (⟨"m", 0, 0⟩ : AutoTimer) (⟨0, 0⟩ : World ℕ) "m" = Except.error "boom" := by
  constructor
  · norm_num [AutoTimer.destructE, AutoTimer.logE, AutoTimer.logImplE]
  · norm_num [AutoTimer.logE, AutoTimer.logImplE]

/-- C8 (amended): failures of the logger or clock capabilities during an
EXPLICIT report call propagate to the caller unmodified: (i) a logger
failure during `logImpl` aborts the call with that very error; (ii) a clock
failure at the start of `log` does the same; and (v) each report applies the
logger at most once — the resulting logger state is a single application or
the unchanged input state.  During the automatic final report, however, the
implicitly `noexcept` destructor never returns the failure to the caller:
(iii) a logger failure and (iv) a clock failure there end in
`std::terminate`. -/
theorem c8_failure_propagation :
    (∀ (σ : Type) (clk : ℕ → Except String ℚ)
        (logger : String → ℚ → σ → Except String σ) (t : AutoTimer)
        (w : World σ) (now : ℚ) (msg err : String),
      now - t.start_ ≥ t.minTimeToLog_ →
      logger msg (now - t.start_) w.loggerState = Except.error err →
      t.logImplE clk logger w now msg = Except.error err)
    ∧ (∀ (σ : Type) (clk : ℕ → Except String ℚ)
        (logger : String → ℚ → σ → Except String σ) (t : AutoTimer)
        (w : World σ) (msg err : String),
      clk w.tick = Except.error err →
      t.logE clk logger w msg = Except.error err)
    ∧ (∀ (σ : Type) (clk : ℕ → Except String ℚ)
        (logger : String → ℚ → σ → Except String σ) (t : AutoTimer)
        (w : World σ) (now : ℚ) (err : String),
      clk w.tick = Except.ok now →
      now - t.start_ ≥ t.minTimeToLog_ →
      logger t.destructionMessage_ (now - t.start_) w.loggerState = Except.error err →
      t.destructE clk logger w = DtorOutcome.terminated err)
    ∧ (∀ (σ : Type) (clk : ℕ → Except String ℚ)
        (logger : String → ℚ → σ → Except String σ) (t : AutoTimer)
        (w : World σ) (err : String),
      clk w.tick = Except.error err →
      t.destructE clk logger w = DtorOutcome.terminated err)
    ∧ (∀ (σ : Type) (e : Env) (logger : String → ℚ → σ → σ) (t : AutoTimer)
        (w : World σ) (now : ℚ) (msg : String),
      (t.logImpl e logger w now msg).2.2.loggerState
          = logger msg (now - t.start_) w.loggerState
      ∨ (t.logImpl e logger w now msg).2.2.loggerState = w.loggerState) := by
  refine ⟨fun σ clk logger t w now msg err h herr => ?_,
          fun σ clk logger t w msg err hclk => ?_,
          fun σ clk logger t w now err hclk h herr => ?_,
          fun σ clk logger t w err hclk => ?_,
          fun σ e logger t w now msg => ?_⟩
  · simp [AutoTimer.logImplE, if_pos h, herr]
  · simp [AutoTimer.logE, hclk]
  · simp [AutoTimer.destructE, AutoTimer.logE, hclk, AutoTimer.logImplE, if_pos h, herr]
  · simp [AutoTimer.destructE, AutoTimer.logE, hclk]
  · by_cases hc : now - t.start_ ≥ t.minTimeToLog_
    · exact Or.inl (by simp [AutoTimer.logImpl, Env.now, hc])
    · exact Or.inr (by simp [AutoTimer.logImpl, Env.now, hc])

/-- C8 witness: a logger that fails with `"boom"` aborts a report, a clock
that fails with `"tick"` aborts a report, the destructor turns the logger's
`"boom"` and the clock's `"tick"` into termination, and a counting logger is
applied at most once. -/
theorem c8_witness :
    (AutoTimer.logImplE (fun _ => Except.ok 0) (fun _ _ _ => Except.error "boom")
        (⟨"m", 0, 0⟩ : AutoTimer) (⟨0, 0⟩ : World ℕ) 1 "x" = Except.error "boom")
    ∧ (AutoTimer.logE (fun _ => Except.error "tick") (fun _ _ n => Except.ok n)
        (⟨"m", 0, 0⟩ : AutoTimer) (⟨0, 0⟩ : World ℕ) "x" = Except.error "tick")
    ∧ (AutoTimer.destructE (fun _ => Except.ok 1) (fun _ _ _ => Except.error "boom")
        (⟨"m", 0, 0⟩ : AutoTimer) (⟨0, 0⟩ : World ℕ) = DtorOutcome.terminated "boom")
    ∧ (AutoTimer.destructE (fun _ => Except.error "tick") (fun _ _ n => Except.ok n)
        (⟨"m", 0, 0⟩ : AutoTimer) (⟨0, 0⟩ : World ℕ) = DtorOutcome.terminated "tick")
    ∧ ((AutoTimer.logImpl env0 (fun _ _ n => n + 1) (⟨"m", 0, 0⟩ : AutoTimer)
          (⟨0, 0⟩ : World ℕ) 1 "x").2.2.loggerState
          = (fun (_ : String) (_ : ℚ) (n : ℕ) => n + 1) "x" (1 - 0) 0
        ∨ (AutoTimer.logImpl env0 (fun _ _ n => n + 1) (⟨"m", 0, 0⟩ : AutoTimer)
            (⟨0, 0⟩ : World ℕ) 1 "x").2.2.loggerState = 0) :=
  ⟨c8_failure_propagation.1 ℕ (fun _ => Except.ok 0) (fun _ _ _ => Except.error "boom")
      ⟨"m", 0, 0⟩ ⟨0, 0⟩ 1 "x" "boom" (by norm_num) rfl,
   c8_failure_propagation.2.1 ℕ (fun _ => Except.error "tick") (fun _ _ n => Except.ok n)
      ⟨"m", 0, 0⟩ ⟨0, 0⟩ "x" "tick" rfl,
   c8_failure_propagation.2.2.1 ℕ (fun _ => Except.ok 1) (fun _ _ _ => Except.error "boom")
      ⟨"m", 0, 0⟩ ⟨0, 0⟩ 1 "boom" rfl (by norm_num) rfl,
   c8_failure_propagation.2.2.2.1 ℕ (fun _ => Except.error "tick") (fun _ _ n => Except.ok n)
      ⟨"m", 0, 0⟩ ⟨0, 0⟩ "tick" rfl,
   c8_failure_propagation.2.2.2.2 ℕ env0 (fun _ _ n => n + 1) ⟨"m", 0, 0⟩ ⟨0, 0⟩ 1 "x"⟩
